import Mathlib

/-!
# Verification of the benefit-scoring and recommendation core

Shallow embedding of `src/scoring.py` (`compute_expected_benefits`,
`rank_products`) and of the hybrid recommendation combiner
`ModelInterface.get_best_product` from `src/model_interface.py`.

Modelling conventions:
* pandas `Series`/`DataFrame` rows become Lean structures; a table is a
  `List` of rows; an absent table (`None` in Python) is `Option.none`.
* Python `float` amounts are modelled as exact rationals `ℚ`.
* Python dict accesses `cfg["rates"]`, `rates["travel_cashback"]`, … that
  raise `KeyError` when the key is absent are modelled by `Option` fields;
  a raised exception is modelled by the whole computation returning `none`
  (the computation runs in the `Option` monad, so a missing key propagates).
* Python's `sorted(..., key=..., reverse=True)` is a stable descending
  sort; it is modelled by `List.insertionSort`, which is stable and agrees
  observationally with any stable sort.
* `tx.groupby("category")["amount_kzt"].sum()` groups by category and, by
  pandas default (`sort=True`), returns the keys in ascending order; the
  resulting dict is modelled as an association list in ascending key order.
-/

/-- One row of the transactions table: `category`, `amount` (in KZT). -/
structure Tx where
  category : String
  amount : ℚ
deriving DecidableEq

/-- One row of the transfers table: `type`, `amount`. -/
structure Tr where
  type : String
  amount : ℚ
deriving DecidableEq

/-- The client profile row; only the field read by the scoring code is
modelled.  `client_row.get("avg_monthly_balance_KZT", 0)` defaults to 0
when the field is missing, hence the `Option`. -/
structure ClientRow where
  avg_monthly_balance_KZT : Option ℚ
deriving DecidableEq

/-- `cfg["rates"]["premium"]`: per-key `Option` models possible `KeyError`. -/
structure PremiumRates where
  base_default : Option ℚ
  base_mid : Option ℚ
  base_high : Option ℚ
  boosted_categories_rate : Option ℚ
  cashback_cap_month : Option ℚ
deriving DecidableEq

/-- `cfg["rates"]["credit_card"]`. -/
structure CreditCardRates where
  fav_rate : Option ℚ
deriving DecidableEq

/-- `cfg["rates"]["deposits"]`. -/
structure DepositRates where
  multi : Option ℚ
  save : Option ℚ
  accum : Option ℚ
deriving DecidableEq

/-- `cfg["rates"]`. -/
structure Rates where
  travel_cashback : Option ℚ
  premium : Option PremiumRates
  credit_card : Option CreditCardRates
  fx_saving_rate : Option ℚ
  deposits : Option DepositRates
deriving DecidableEq

/-- `cfg["categories"]`. -/
structure Categories where
  travel : Option (List String)
  premium_boosted : Option (List String)
  online : Option (List String)
deriving DecidableEq

/-- The whole configuration dict. -/
structure Cfg where
  rates : Option Rates
  categories : Option Categories
deriving DecidableEq

/-- A value in a per-product fact dict (`facts[...]` holds floats, ints and
a list of category names). -/
inductive FactVal where
  | num (q : ℚ)
  | int (n : ℤ)
  | strList (l : List String)
deriving DecidableEq

/-- A per-product fact dict. -/
abbrev FactDict := List (String × FactVal)

/-- `tx["amount"].clip(lower=0)` applied to one row. -/
def clipAmount (t : Tx) : ℚ := max t.amount 0

/-- `total_spend = tx["amount_kzt"].sum()`. -/
def totalSpend (tx : List Tx) : ℚ := (tx.map clipAmount).sum

/-- The distinct categories of the transaction table in ascending order —
the key order of `tx.groupby("category")` with the pandas default
`sort=True`. -/
def groupKeys (tx : List Tx) : List String :=
  List.insertionSort (fun a b => a ≤ b) (tx.map Tx.category).dedup

/-- `cat_spend = tx.groupby("category")["amount_kzt"].sum().to_dict()`:
per-category sum of clipped amounts, as an association list keyed in
ascending category order. -/
def catSpend (tx : List Tx) : List (String × ℚ) :=
  (groupKeys tx).map fun c =>
    (c, ((tx.filter fun t => t.category == c).map clipAmount).sum)

/-- `cat_spend.get(c, 0)`. -/
def getSpend (s : List (String × ℚ)) (c : String) : ℚ := (s.lookup c).getD 0

/-- `sum(cat_spend.get(c, 0) for c in cs)`. -/
def sumSpend (s : List (String × ℚ)) (cs : List String) : ℚ :=
  (cs.map (getSpend s)).sum

/-- The comparison used by `sorted(..., key=lambda x: x[1], reverse=True)`:
`x` may stay before `y` iff `x`'s value is at least `y`'s. -/
def benefitGe (x y : String × ℚ) : Prop := y.2 ≤ x.2

instance : DecidableRel benefitGe := fun x y =>
  inferInstanceAs (Decidable (y.2 ≤ x.2))

instance : IsTotal (String × ℚ) benefitGe := ⟨fun a b => le_total b.2 a.2⟩

instance : IsTrans (String × ℚ) benefitGe := ⟨fun _ _ _ h1 h2 => le_trans h2 h1⟩

/-- Python's `sorted(items, key=lambda x: x[1], reverse=True)`: a stable
descending sort on the numeric component. -/
def sortBySpendDesc (l : List (String × ℚ)) : List (String × ℚ) :=
  List.insertionSort benefitGe l

/-- `top3 = items[:3]` where `items` is `cat_spend.items()` sorted by spend
descending. -/
def top3 (tx : List Tx) : List (String × ℚ) := (sortBySpendDesc (catSpend tx)).take 3

/-- `top3_cats = {c for c, _ in top3}`. -/
def top3Cats (tx : List Tx) : List String := (top3 tx).map Prod.fst

/-- `top3_spend = sum(v for _, v in top3)`. -/
def top3Spend (tx : List Tx) : ℚ := ((top3 tx).map Prod.snd).sum

/-- `set(cats["online"]) - top3_cats`. -/
def onlineExtraCats (online : List String) (tx : List Tx) : List String :=
  online.dedup.filter fun c => ¬ (top3Cats tx).contains c

/-- `online_extra = sum(cat_spend.get(c, 0) for c in set(cats["online"]) - top3_cats)`. -/
def onlineExtra (online : List String) (tx : List Tx) : ℚ :=
  ((onlineExtraCats online tx).map (getSpend (catSpend tx))).sum

/-- The transfer types counted as fx operations. -/
def fxOpTypes : List String :=
  ["fx_buy", "fx_sell", "deposit_fx_topup_out", "deposit_fx_withdraw_in"]

/-- The transfer types whose amounts enter the fx volume. -/
def fxVolTypes : List String := ["fx_buy", "fx_sell"]

/-- `fx_ops` (0 when `tr is None` or `tr.empty`). -/
def fxOps (trOpt : Option (List Tr)) : Nat :=
  match trOpt with
  | some tr => if tr.isEmpty then 0 else (tr.filter fun r => fxOpTypes.contains r.type).length
  | none => 0

/-- `fx_vol` (0.0 when `tr is None` or `tr.empty`). -/
def fxVol (trOpt : Option (List Tr)) : ℚ :=
  match trOpt with
  | some tr =>
    if tr.isEmpty then 0
    else ((tr.filter fun r => fxVolTypes.contains r.type).map Tr.amount).sum
  | none => 0

/-- `invest_signal`: 1 iff the transfer table is present, non-empty and has
an `invest_in`/`invest_out` row. -/
def investSignal (trOpt : Option (List Tr)) : Nat :=
  match trOpt with
  | some tr =>
    if ¬ tr.isEmpty ∧ tr.any (fun r => ["invest_in", "invest_out"].contains r.type) then 1 else 0
  | none => 0

/-- `gold_signal`: 1 iff the transfer table is present, non-empty and has a
`gold_buy_out`/`gold_sell_in` row. -/
def goldSignal (trOpt : Option (List Tr)) : Nat :=
  match trOpt with
  | some tr =>
    if ¬ tr.isEmpty ∧ tr.any (fun r => ["gold_buy_out", "gold_sell_in"].contains r.type) then 1 else 0
  | none => 0

/-- `avg_bal = float(client_row.get("avg_monthly_balance_KZT", 0))`. -/
def avgBal (c : ClientRow) : ℚ := c.avg_monthly_balance_KZT.getD 0

/-- The premium-card base rate: `base = rates["premium"]["base_default"]`
(read unconditionally, hence matched first), overridden by `base_mid` when
`1_000_000 <= avg_bal < 6_000_000` and by `base_high` when
`avg_bal >= 6_000_000`. -/
def premiumBase (p : PremiumRates) (avg_bal : ℚ) : Option ℚ :=
  match p.base_default with
  | none => none
  | some bd =>
    if 1000000 ≤ avg_bal ∧ avg_bal < 6000000 then p.base_mid
    else if 6000000 ≤ avg_bal then p.base_high
    else some bd

/-- The 10 product-class names, in the order `compute_expected_benefits`
inserts them into the benefits dict. -/
def productCatalog : List String :=
  ["Карта для путешествий", "Премиальная карта", "Кредитная карта",
   "Обмен валют", "Кредит наличными", "Депозит Мультивалютный",
   "Депозит Сберегательный", "Депозит Накопительный", "Инвестиции",
   "Золотые слитки"]

/-- The benefits dict built by `compute_expected_benefits`, in insertion
order (src/scoring.py lines 28, 43, 53, 63, 67, 74-76, 84-85). -/
def benefitsList (c : ClientRow) (tx : List Tx) (trOpt : Option (List Tr))
    (tcb base bcr cap fav fxr dm ds da : ℚ)
    (ctrav cboost conl : List String) : List (String × ℚ) :=
  [("Карта для путешествий", tcb * sumSpend (catSpend tx) ctrav),
   ("Премиальная карта",
     min (bcr * sumSpend (catSpend tx) cboost +
       base * max (totalSpend tx - sumSpend (catSpend tx) cboost) 0) cap),
   ("Кредитная карта", fav * (top3Spend tx + onlineExtra conl tx)),
   ("Обмен валют", fxr * fxVol trOpt),
   ("Кредит наличными", 0),
   ("Депозит Мультивалютный", dm * avgBal c / 12 * 3),
   ("Депозит Сберегательный", ds * avgBal c / 12 * 3),
   ("Депозит Накопительный", da * avgBal c / 12 * 3),
   ("Инвестиции", 1000 * (investSignal trOpt : ℚ)),
   ("Золотые слитки", 1000 * (goldSignal trOpt : ℚ))]

/-- The facts dict built by `compute_expected_benefits`, in insertion order
(src/scoring.py lines 29, 44, 54, 64, 68, 77-79, 86-87). -/
def factsList (c : ClientRow) (tx : List Tx) (trOpt : Option (List Tr))
    (base : ℚ) (ctrav cboost : List String) : List (String × FactDict) :=
  [("Карта для путешествий", [("travel_spend", .num (sumSpend (catSpend tx) ctrav))]),
   ("Премиальная карта",
     [("avg_balance", .num (avgBal c)),
      ("boosted_spend", .num (sumSpend (catSpend tx) cboost)),
      ("total_spend", .num (totalSpend tx)), ("rate", .num base)]),
   ("Кредитная карта",
     [("top3", .strList (top3Cats tx)), ("top3_spend", .num (top3Spend tx))]),
   ("Обмен валют",
     [("fx_volume_est", .num (fxVol trOpt)), ("fx_ops", .int (fxOps trOpt))]),
   ("Кредит наличными", []),
   ("Депозит Мультивалютный", [("avg_balance", .num (avgBal c))]),
   ("Депозит Сберегательный", [("avg_balance", .num (avgBal c))]),
   ("Депозит Накопительный", [("avg_balance", .num (avgBal c))]),
   ("Инвестиции", [("signal", .int (investSignal trOpt))]),
   ("Золотые слитки", [("signal", .int (goldSignal trOpt))])]

/-- Shallow embedding of `compute_expected_benefits` (src/scoring.py:5-89).
The result is `none` exactly when the Python call raises: a missing dict
key (`KeyError`) or an absent (`None`) transaction table
(`AttributeError` on `tx.copy()`). The benefit and fact dicts are
association lists in insertion order. -/
def compute_expected_benefits (client_row : ClientRow) (txOpt : Option (List Tx))
    (trOpt : Option (List Tr)) (cfg : Cfg) :
    Option (List (String × ℚ) × List (String × FactDict)) :=
  -- `rates = cfg["rates"]`, `cats = cfg["categories"]`, `tx = tx.copy()`:
  -- a missing key raises `KeyError`, a `None` transaction table raises
  -- `AttributeError` on `.copy()` — both modelled by `none`.
  match cfg.rates, cfg.categories, txOpt with
  | some rates, some cats, some tx =>
    -- each of these keys is read unconditionally by the function body
    match rates.travel_cashback, rates.premium, rates.credit_card,
        rates.fx_saving_rate, rates.deposits, cats.travel,
        cats.premium_boosted, cats.online with
    | some tcb, some prem, some ccr, some fxr, some dep, some ctrav,
      some cboost, some conl =>
      match prem.boosted_categories_rate, prem.cashback_cap_month,
          ccr.fav_rate, dep.multi, dep.save, dep.accum,
          premiumBase prem (avgBal client_row) with
      | some bcr, some cap, some fav, some dm, some ds, some da, some base =>
        some (benefitsList client_row tx trOpt tcb base bcr cap fav fxr dm ds da ctrav cboost conl,
              factsList client_row tx trOpt base ctrav cboost)
      | _, _, _, _, _, _, _ => none
    | _, _, _, _, _, _, _, _ => none
  | _, _, _ => none

/-- Shallow embedding of `rank_products` (src/scoring.py:91-92):
`sorted(benefits.items(), key=lambda x: x[1], reverse=True)`, a stable
descending sort on the benefit value. -/
def rank_products (benefits : List (String × ℚ)) : List (String × ℚ) :=
  List.insertionSort benefitGe benefits

/-- Inversion principle for `compute_expected_benefits`: a successful run
determines every configuration key it read and the exact result. -/
theorem compute_spec {c : ClientRow} {txOpt : Option (List Tx)}
    {trOpt : Option (List Tr)} {cfg : Cfg}
    {r : List (String × ℚ) × List (String × FactDict)}
    (h : compute_expected_benefits c txOpt trOpt cfg = some r) :
    ∃ rates cats tx tcb prem ccr fxr dep ctrav cboost conl bcr cap fav dm ds da base,
      cfg.rates = some rates ∧ cfg.categories = some cats ∧ txOpt = some tx ∧
      rates.travel_cashback = some tcb ∧ rates.premium = some prem ∧
      rates.credit_card = some ccr ∧ rates.fx_saving_rate = some fxr ∧
      rates.deposits = some dep ∧ cats.travel = some ctrav ∧
      cats.premium_boosted = some cboost ∧ cats.online = some conl ∧
      prem.boosted_categories_rate = some bcr ∧ prem.cashback_cap_month = some cap ∧
      ccr.fav_rate = some fav ∧ dep.multi = some dm ∧ dep.save = some ds ∧
      dep.accum = some da ∧ premiumBase prem (avgBal c) = some base ∧
      r = (benefitsList c tx trOpt tcb base bcr cap fav fxr dm ds da ctrav cboost conl,
           factsList c tx trOpt base ctrav cboost) := by
  unfold compute_expected_benefits at h
  split at h
  next _ _ _ rates cats tx h1 h2 =>
    split at h
    next _ _ _ _ _ _ _ _ tcb prem ccr fxr dep ctrav cboost conl
        h4 h5 h6 h7 h8 h9 h10 h11 =>
      split at h
      next _ _ _ _ _ _ _ bcr cap fav dm ds da base h12 h13 h14 h15 h16 h17 h18 =>
        exact ⟨rates, cats, tx, tcb, prem, ccr, fxr, dep, ctrav, cboost, conl,
          bcr, cap, fav, dm, ds, da, base, h1, h2, rfl, h4, h5, h6, h7, h8, h9,
          h10, h11, h12, h13, h14, h15, h16, h17, h18, (Option.some.inj h).symm⟩
      all_goals exact Option.noConfusion h
    all_goals exact Option.noConfusion h
  all_goals exact Option.noConfusion h

/-- Converse of `compute_spec`: when every key the function reads is
present, the computation succeeds with the explicit result. -/
theorem compute_complete {c : ClientRow} {tx : List Tx} {trOpt : Option (List Tr)}
    {cfg : Cfg} {rates : Rates} {cats : Categories} {prem : PremiumRates}
    {ccr : CreditCardRates} {dep : DepositRates} {tcb fxr bcr cap fav dm ds da base : ℚ}
    {ctrav cboost conl : List String}
    (h1 : cfg.rates = some rates) (h2 : cfg.categories = some cats)
    (h4 : rates.travel_cashback = some tcb) (h5 : rates.premium = some prem)
    (h6 : rates.credit_card = some ccr) (h7 : rates.fx_saving_rate = some fxr)
    (h8 : rates.deposits = some dep) (h9 : cats.travel = some ctrav)
    (h10 : cats.premium_boosted = some cboost) (h11 : cats.online = some conl)
    (h12 : prem.boosted_categories_rate = some bcr)
    (h13 : prem.cashback_cap_month = some cap) (h14 : ccr.fav_rate = some fav)
    (h15 : dep.multi = some dm) (h16 : dep.save = some ds)
    (h17 : dep.accum = some da) (h18 : premiumBase prem (avgBal c) = some base) :
    compute_expected_benefits c (some tx) trOpt cfg =
      some (benefitsList c tx trOpt tcb base bcr cap fav fxr dm ds da ctrav cboost conl,
            factsList c tx trOpt base ctrav cboost) := by
  unfold compute_expected_benefits
  simp only [h1, h2, h4, h5, h6, h7, h8, h9, h10, h11, h12, h13, h14, h15, h16,
    h17, h18]

/-- A successful association-list lookup returns a stored pair. -/
theorem lookup_mem {l : List (String × ℚ)} {k : String} {v : ℚ}
    (h : l.lookup k = some v) : (k, v) ∈ l := by
  induction l with
  | nil => exact absurd h (by simp)
  | cons p rest ih =>
    obtain ⟨pk, pv⟩ := p
    by_cases hk : k = pk
    · subst hk
      simp only [List.lookup, beq_self_eq_true] at h
      cases h
      exact List.mem_cons_self _ _
    · have hb : (k == pk) = false := beq_eq_false_iff_ne.mpr hk
      simp only [List.lookup, hb] at h
      exact List.mem_cons_of_mem _ (ih h)

/-- Every per-category total in `cat_spend` is a sum of clipped (hence
non-negative) amounts. -/
theorem catSpend_nonneg (tx : List Tx) : ∀ p ∈ catSpend tx, 0 ≤ p.2 := by
  intro p hp
  simp only [catSpend, List.mem_map] at hp
  obtain ⟨c, _, rfl⟩ := hp
  refine List.sum_nonneg ?_
  intro x hx
  simp only [List.mem_map] at hx
  obtain ⟨t, _, rfl⟩ := hx
  exact le_max_right _ _

/-- `cat_spend.get(c, 0)` is never negative. -/
theorem getSpend_catSpend_nonneg (tx : List Tx) (c : String) :
    0 ≤ getSpend (catSpend tx) c := by
  unfold getSpend
  cases hl : (catSpend tx).lookup c with
  | none => simp
  | some v => simpa using catSpend_nonneg tx _ (lookup_mem hl)

/-- A category-list total of `cat_spend` values is never negative. -/
theorem sumSpend_catSpend_nonneg (tx : List Tx) (cs : List String) :
    0 ≤ sumSpend (catSpend tx) cs := by
  refine List.sum_nonneg ?_
  intro x hx
  simp only [List.mem_map] at hx
  obtain ⟨c, _, rfl⟩ := hx
  exact getSpend_catSpend_nonneg tx c

/-- The clipped total spend is never negative. -/
theorem totalSpend_nonneg (tx : List Tx) : 0 ≤ totalSpend tx := by
  refine List.sum_nonneg ?_
  intro x hx
  simp only [List.mem_map] at hx
  obtain ⟨t, _, rfl⟩ := hx
  exact le_max_right _ _

/-- Every entry of the spend-sorted category list is a `cat_spend` entry. -/
theorem mem_catSpend_of_mem_sortBySpendDesc {tx : List Tx} {p : String × ℚ}
    (h : p ∈ sortBySpendDesc (catSpend tx)) : p ∈ catSpend tx :=
  (List.perm_insertionSort benefitGe (catSpend tx)).mem_iff.mp h

/-- The top-3 spend total is never negative. -/
theorem top3Spend_nonneg (tx : List Tx) : 0 ≤ top3Spend tx := by
  refine List.sum_nonneg ?_
  intro x hx
  simp only [top3Spend, List.mem_map] at hx
  obtain ⟨p, hp, rfl⟩ := hx
  exact catSpend_nonneg tx p
    (mem_catSpend_of_mem_sortBySpendDesc (List.mem_of_mem_take hp))

/-- The online-extra spend total is never negative. -/
theorem onlineExtra_nonneg (online : List String) (tx : List Tx) :
    0 ≤ onlineExtra online tx := by
  refine List.sum_nonneg ?_
  intro x hx
  simp only [onlineExtra, List.mem_map] at hx
  obtain ⟨c, _, rfl⟩ := hx
  exact getSpend_catSpend_nonneg tx c

/-- All transfer amounts in the (possibly absent) transfer table are
non-negative. -/
abbrev TrNonneg (trOpt : Option (List Tr)) : Prop :=
  ∀ t ∈ trOpt.getD [], 0 ≤ t.amount

/-- The fx volume is non-negative when all transfer amounts are. -/
theorem fxVol_nonneg {trOpt : Option (List Tr)} (h : TrNonneg trOpt) :
    0 ≤ fxVol trOpt := by
  unfold fxVol
  cases trOpt with
  | none => exact le_refl 0
  | some tr =>
    by_cases he : tr.isEmpty
    · simp [he]
    · simp only [he, if_false]
      refine List.sum_nonneg ?_
      intro x hx
      simp only [List.mem_map] at hx
      obtain ⟨t, ht, rfl⟩ := hx
      exact h t (List.mem_of_mem_filter ht)

/-- An optional rate that, when present, is non-negative. -/
abbrev OptNonneg (o : Option ℚ) : Prop := 0 ≤ o.getD 0

/-- `OptNonneg` specialised to a present value. -/
theorem OptNonneg.le {o : Option ℚ} {q : ℚ} (h : OptNonneg o) (he : o = some q) :
    0 ≤ q := by
  rw [he] at h
  simpa using h

/-- All premium-card rates that are present are non-negative. -/
abbrev PremNonneg (p : PremiumRates) : Prop :=
  OptNonneg p.base_default ∧ OptNonneg p.base_mid ∧ OptNonneg p.base_high ∧
  OptNonneg p.boosted_categories_rate ∧ OptNonneg p.cashback_cap_month

/-- All rates of the configuration that are present are non-negative. -/
abbrev RatesNonneg (r : Rates) : Prop :=
  OptNonneg r.travel_cashback ∧
  PremNonneg (r.premium.getD ⟨none, none, none, none, none⟩) ∧
  OptNonneg ((r.credit_card.getD ⟨none⟩).fav_rate) ∧
  OptNonneg r.fx_saving_rate ∧
  OptNonneg ((r.deposits.getD ⟨none, none, none⟩).multi) ∧
  OptNonneg ((r.deposits.getD ⟨none, none, none⟩).save) ∧
  OptNonneg ((r.deposits.getD ⟨none, none, none⟩).accum)

/-- All rates present in the configuration are non-negative. -/
abbrev CfgNonneg (cfg : Cfg) : Prop :=
  RatesNonneg (cfg.rates.getD ⟨none, none, none, none, none⟩)

/-- Whatever tier the base rate is drawn from, it is non-negative under
`PremNonneg`. -/
theorem premiumBase_nonneg {p : PremiumRates} {bal b : ℚ} (hp : PremNonneg p)
    (h : premiumBase p bal = some b) : 0 ≤ b := by
  unfold premiumBase at h
  cases hbd : p.base_default with
  | none => rw [hbd] at h; exact Option.noConfusion h
  | some bd =>
    rw [hbd] at h
    split_ifs at h with h1 h2
    · exact hp.2.1.le h
    · exact hp.2.2.1.le h
    · exact hp.1.le (hbd.trans (congrArg some (Option.some.inj h)))

/-- Demo premium rates (all present, non-negative). -/
def premDemo : PremiumRates :=
  { base_default := some (1/100)
    base_mid := some (2/100)
    base_high := some (3/100)
    boosted_categories_rate := some (4/100)
    cashback_cap_month := some 100000 }

/-- Demo rate block (all present, non-negative). -/
def ratesDemo : Rates :=
  { travel_cashback := some (4/100)
    premium := some premDemo
    credit_card := some { fav_rate := some (1/10) }
    fx_saving_rate := some (1/100)
    deposits := some
      { multi := some (145/1000)
        save := some (165/1000)
        accum := some (155/1000) } }

/-- Demo category lists. -/
def catsDemo : Categories :=
  { travel := some ["Путешествия", "Такси", "Отели"]
    premium_boosted := some
      ["Ювелирные украшения", "Косметика и Парфюмерия", "Кафе и рестораны"]
    online := some ["Смотрим дома", "Играем дома", "Едим дома"] }

/-- A fully-populated demo configuration (all required keys present,
non-negative rates). -/
def cfgDemo : Cfg := { rates := some ratesDemo, categories := some catsDemo }

/-- A client with zero average balance. -/
def clientZero : ClientRow := ⟨some 0⟩

/-- A client with average balance 500,000 (the spec's edge-case scenario). -/
def clientHalfMil : ClientRow := ⟨some 500000⟩

/-- A client with average balance 2,000,000 (mid premium tier). -/
def clientMid : ClientRow := ⟨some 2000000⟩

/-- C1 counterexample: with valid per-spec inputs — empty transactions and a
transfer record of type `fx_buy` with amount −100 (the data model does not
forbid negative transfer amounts, and the code never clips them) — the
computation succeeds but the fx benefit is −1 < 0, so "every benefit value
is ≥ 0" fails as universally quantified. -/
theorem C1_counterexample :
    (compute_expected_benefits clientZero (some []) (some [⟨"fx_buy", -100⟩]) cfgDemo).map
      (fun r => r.1.all fun p => decide (0 ≤ p.2)) = some false := by
  norm_num [compute_expected_benefits, cfgDemo, ratesDemo, catsDemo, premDemo,
    clientZero, benefitsList, factsList, premiumBase, avgBal, catSpend,
    groupKeys, getSpend, sumSpend, totalSpend, top3, top3Cats, top3Spend,
    sortBySpendDesc, onlineExtra, onlineExtraCats, fxVol, fxOps, fxVolTypes,
    fxOpTypes, investSignal, goldSignal, clipAmount, List.insertionSort,
    List.orderedInsert, benefitGe, productCatalog]

/-- C1 (amended): for every client, transaction table, transfer table and
rate configuration whose present rates are non-negative, whose client
balance is non-negative and whose transfer amounts are non-negative, a
successful `compute_expected_benefits` run returns a BenefitMap whose keys
are exactly the 10 fixed product-class names in catalog order (no class
invented or dropped) and whose values are all ≥ 0. -/
theorem C1_amended_thm (c : ClientRow) (txOpt : Option (List Tx))
    (trOpt : Option (List Tr)) (cfg : Cfg) (b : List (String × ℚ))
    (f : List (String × FactDict))
    (hok : compute_expected_benefits c txOpt trOpt cfg = some (b, f))
    (hcfg : CfgNonneg cfg) (hbal : 0 ≤ avgBal c) (htr : TrNonneg trOpt) :
    b.map Prod.fst = productCatalog ∧ ∀ p ∈ b, 0 ≤ p.2 := by
  obtain ⟨rates, cats, tx, tcb, prem, ccr, fxr, dep, ctrav, cboost, conl, bcr,
    cap, fav, dm, ds, da, base, h1, h2, h3, h4, h5, h6, h7, h8, h9, h10, h11,
    h12, h13, h14, h15, h16, h17, h18, hr⟩ := compute_spec hok
  injection hr with hb hf
  subst hb
  have hrn : RatesNonneg rates := by
    have h := hcfg
    unfold CfgNonneg at h
    rw [h1] at h
    simpa using h
  have htcb : 0 ≤ tcb := hrn.1.le h4
  have hprem : PremNonneg prem := by
    have h := hrn.2.1
    rw [h5] at h
    simpa using h
  have hfav : 0 ≤ fav := by
    have h := hrn.2.2.1
    rw [h6] at h
    exact (by simpa using h : OptNonneg ccr.fav_rate).le h14
  have hfxr : 0 ≤ fxr := hrn.2.2.2.1.le h7
  have hdm : 0 ≤ dm := by
    have h := hrn.2.2.2.2.1
    rw [h8] at h
    exact (by simpa using h : OptNonneg dep.multi).le h15
  have hds : 0 ≤ ds := by
    have h := hrn.2.2.2.2.2.1
    rw [h8] at h
    exact (by simpa using h : OptNonneg dep.save).le h16
  have hda : 0 ≤ da := by
    have h := hrn.2.2.2.2.2.2
    rw [h8] at h
    exact (by simpa using h : OptNonneg dep.accum).le h17
  have hbcr : 0 ≤ bcr := hprem.2.2.2.1.le h12
  have hcap : 0 ≤ cap := hprem.2.2.2.2.le h13
  have hbase : 0 ≤ base := premiumBase_nonneg hprem h18
  constructor
  · rfl
  · intro p hp
    simp only [benefitsList, List.mem_cons, List.not_mem_nil, or_false] at hp
    rcases hp with rfl | rfl | rfl | rfl | rfl | rfl | rfl | rfl | rfl | rfl
    · exact mul_nonneg htcb (sumSpend_catSpend_nonneg tx ctrav)
    · exact le_min
        (add_nonneg (mul_nonneg hbcr (sumSpend_catSpend_nonneg tx cboost))
          (mul_nonneg hbase (le_max_right _ _))) hcap
    · exact mul_nonneg hfav
        (add_nonneg (top3Spend_nonneg tx) (onlineExtra_nonneg conl tx))
    · exact mul_nonneg hfxr (fxVol_nonneg htr)
    · exact le_refl 0
    · exact mul_nonneg (div_nonneg (mul_nonneg hdm hbal) (by norm_num)) (by norm_num)
    · exact mul_nonneg (div_nonneg (mul_nonneg hds hbal) (by norm_num)) (by norm_num)
    · exact mul_nonneg (div_nonneg (mul_nonneg hda hbal) (by norm_num)) (by norm_num)
    · exact mul_nonneg (by norm_num) (Nat.cast_nonneg _)
    · exact mul_nonneg (by norm_num) (Nat.cast_nonneg _)

/-- The exact BenefitMap for `clientHalfMil` with empty tables under
`cfgDemo` (deposit benefits are balance-proportional, everything else 0). -/
def benefitsHalfMil : List (String × ℚ) :=
  [("Карта для путешествий", 0), ("Премиальная карта", 0),
   ("Кредитная карта", 0), ("Обмен валют", 0), ("Кредит наличными", 0),
   ("Депозит Мультивалютный", 18125), ("Депозит Сберегательный", 20625),
   ("Депозит Накопительный", 19375), ("Инвестиции", 0), ("Золотые слитки", 0)]

/-- The exact FactMap for `clientHalfMil` with empty tables under `cfgDemo`. -/
def factsHalfMil : List (String × FactDict) :=
  [("Карта для путешествий", [("travel_spend", .num 0)]),
   ("Премиальная карта",
     [("avg_balance", .num 500000), ("boosted_spend", .num 0),
      ("total_spend", .num 0), ("rate", .num (1/100))]),
   ("Кредитная карта", [("top3", .strList []), ("top3_spend", .num 0)]),
   ("Обмен валют", [("fx_volume_est", .num 0), ("fx_ops", .int 0)]),
   ("Кредит наличными", []),
   ("Депозит Мультивалютный", [("avg_balance", .num 500000)]),
   ("Депозит Сберегательный", [("avg_balance", .num 500000)]),
   ("Депозит Накопительный", [("avg_balance", .num 500000)]),
   ("Инвестиции", [("signal", .int 0)]),
   ("Золотые слитки", [("signal", .int 0)])]

/-- C1 witness: the amended theorem applied to a concrete client/config. -/
theorem C1_witness : benefitsHalfMil.map Prod.fst = productCatalog :=
  (C1_amended_thm clientHalfMil (some []) (some []) cfgDemo benefitsHalfMil
    factsHalfMil
    (by norm_num +decide [compute_expected_benefits, cfgDemo, ratesDemo, catsDemo,
      premDemo, clientHalfMil, benefitsList, factsList, benefitsHalfMil,
      factsHalfMil, premiumBase, avgBal, catSpend, groupKeys, getSpend,
      sumSpend, totalSpend, top3, top3Cats, top3Spend, sortBySpendDesc,
      onlineExtra, onlineExtraCats, fxVol, fxOps, fxVolTypes, fxOpTypes,
      investSignal, goldSignal, clipAmount, List.insertionSort,
      List.orderedInsert, benefitGe, List.dedup, List.pwFilter, List.lookup])
    (by norm_num [CfgNonneg, RatesNonneg, PremNonneg, OptNonneg, cfgDemo,
      ratesDemo, premDemo])
    (by norm_num [avgBal, clientHalfMil])
    (by simp [TrNonneg])).1

/-- C10: on every successful run the FactMap's keys are also exactly the 10
fixed product-class names, in the same catalog order as the BenefitMap. -/
theorem C10_thm (c : ClientRow) (txOpt : Option (List Tx))
    (trOpt : Option (List Tr)) (cfg : Cfg) (b : List (String × ℚ))
    (f : List (String × FactDict))
    (hok : compute_expected_benefits c txOpt trOpt cfg = some (b, f)) :
    f.map Prod.fst = productCatalog := by
  obtain ⟨rates, cats, tx, tcb, prem, ccr, fxr, dep, ctrav, cboost, conl, bcr,
    cap, fav, dm, ds, da, base, h1, h2, h3, h4, h5, h6, h7, h8, h9, h10, h11,
    h12, h13, h14, h15, h16, h17, h18, hr⟩ := compute_spec hok
  injection hr with hb hf
  subst hf
  rfl

/-- C10 witness: the theorem applied to a concrete client/config. -/
theorem C10_witness : factsHalfMil.map Prod.fst = productCatalog :=
  C10_thm clientHalfMil (some []) (some []) cfgDemo benefitsHalfMil factsHalfMil
    (by norm_num +decide [compute_expected_benefits, cfgDemo, ratesDemo,
      catsDemo, premDemo, clientHalfMil, benefitsList, factsList,
      benefitsHalfMil, factsHalfMil, premiumBase, avgBal, catSpend, groupKeys,
      getSpend, sumSpend, totalSpend, top3, top3Cats, top3Spend,
      sortBySpendDesc, onlineExtra, onlineExtraCats, fxVol, fxOps, fxVolTypes,
      fxOpTypes, investSignal, goldSignal, clipAmount, List.insertionSort,
      List.orderedInsert, benefitGe, List.dedup, List.pwFilter, List.lookup])

/-- With no transactions `cat_spend` is the empty dict, so every category
lookup total is 0. -/
theorem sumSpend_nil (cs : List String) : sumSpend [] cs = 0 := by
  unfold sumSpend
  refine List.sum_eq_zero ?_
  intro x hx
  simp only [List.mem_map] at hx
  obtain ⟨c2, _, rfl⟩ := hx
  rfl

/-- With no transactions the online-extra total is 0. -/
theorem onlineExtra_nil (online : List String) : onlineExtra online [] = 0 := by
  unfold onlineExtra
  refine List.sum_eq_zero ?_
  intro x hx
  simp only [List.mem_map] at hx
  obtain ⟨c2, _, rfl⟩ := hx
  rfl

/-- C2 counterexample: an absent (`None`) transaction table makes the call
raise (`AttributeError` on `tx.copy()`, modelled by `none`), even with an
empty transfer table and a fully-populated configuration — so "absent
transaction tables do not raise" fails. Only the transfer table is guarded
by `tr is not None` in the source. -/
theorem C2_counterexample :
    compute_expected_benefits clientHalfMil none (some []) cfgDemo = none := by
  rfl

/-- C2 (amended): with an *empty* transaction table and an empty or absent
transfer table, `compute_expected_benefits` does not raise provided every
required rate key is present: all aggregations default to zero, the full
10-entry BenefitMap is produced with zero values where no signal exists,
deposit benefits proportional to the average balance, and the premium entry
`min 0 cap` (which is 0 for a non-negative cap).  An *absent* transaction
table, by contrast, raises. -/
theorem C2_amended_thm (c : ClientRow) (trOpt : Option (List Tr)) (cfg : Cfg)
    (rates : Rates) (cats : Categories) (prem : PremiumRates)
    (ccr : CreditCardRates) (dep : DepositRates)
    (tcb fxr bcr cap fav dm ds da base : ℚ) (ctrav cboost conl : List String)
    (h1 : cfg.rates = some rates) (h2 : cfg.categories = some cats)
    (h4 : rates.travel_cashback = some tcb) (h5 : rates.premium = some prem)
    (h6 : rates.credit_card = some ccr) (h7 : rates.fx_saving_rate = some fxr)
    (h8 : rates.deposits = some dep) (h9 : cats.travel = some ctrav)
    (h10 : cats.premium_boosted = some cboost) (h11 : cats.online = some conl)
    (h12 : prem.boosted_categories_rate = some bcr)
    (h13 : prem.cashback_cap_month = some cap) (h14 : ccr.fav_rate = some fav)
    (h15 : dep.multi = some dm) (h16 : dep.save = some ds)
    (h17 : dep.accum = some da) (h18 : premiumBase prem (avgBal c) = some base)
    (htr : trOpt = none ∨ trOpt = some []) :
    compute_expected_benefits c (some []) trOpt cfg =
      some ([("Карта для путешествий", 0), ("Премиальная карта", min 0 cap),
        ("Кредитная карта", 0), ("Обмен валют", 0), ("Кредит наличными", 0),
        ("Депозит Мультивалютный", dm * avgBal c / 12 * 3),
        ("Депозит Сберегательный", ds * avgBal c / 12 * 3),
        ("Депозит Накопительный", da * avgBal c / 12 * 3),
        ("Инвестиции", 0), ("Золотые слитки", 0)],
        factsList c [] trOpt base ctrav cboost) := by
  have hcs : catSpend [] = ([] : List (String × ℚ)) := rfl
  rcases htr with rfl | rfl <;>
  · rw [compute_complete h1 h2 h4 h5 h6 h7 h8 h9 h10 h11 h12 h13 h14 h15 h16
      h17 h18]
    simp [benefitsList, hcs, sumSpend_nil, onlineExtra_nil, totalSpend,
      top3Spend, top3, sortBySpendDesc, List.insertionSort, clipAmount, fxVol,
      investSignal, goldSignal]

/-- C2 witness: the amended theorem applied to the spec's edge-case client
(balance 500,000) with an empty transaction table and empty transfer
table. -/
theorem C2_witness :
    compute_expected_benefits clientHalfMil (some []) (some []) cfgDemo =
      some ([("Карта для путешествий", 0), ("Премиальная карта", min 0 100000),
        ("Кредитная карта", 0), ("Обмен валют", 0), ("Кредит наличными", 0),
        ("Депозит Мультивалютный", (145/1000 : ℚ) * avgBal clientHalfMil / 12 * 3),
        ("Депозит Сберегательный", (165/1000 : ℚ) * avgBal clientHalfMil / 12 * 3),
        ("Депозит Накопительный", (155/1000 : ℚ) * avgBal clientHalfMil / 12 * 3),
        ("Инвестиции", 0), ("Золотые слитки", 0)],
        factsList clientHalfMil [] (some []) (1/100)
          ["Путешествия", "Такси", "Отели"]
          ["Ювелирные украшения", "Косметика и Парфюмерия", "Кафе и рестораны"]) :=
  C2_amended_thm clientHalfMil (some []) cfgDemo ratesDemo catsDemo premDemo
    ⟨some (1/10)⟩ ⟨some (145/1000), some (165/1000), some (155/1000)⟩
    (4/100) (1/100) (4/100) 100000 (1/10) (145/1000) (165/1000) (155/1000)
    (1/100) ["Путешествия", "Такси", "Отели"]
    ["Ювелирные украшения", "Косметика и Парфюмерия", "Кафе и рестораны"]
    ["Смотрим дома", "Играем дома", "Едим дома"]
    rfl rfl rfl rfl rfl rfl rfl rfl rfl rfl rfl rfl rfl rfl rfl rfl
    (by norm_num [premiumBase, premDemo, avgBal, clientHalfMil]) (Or.inr rfl)

/-- C3: on a successful run the premium-card benefit equals
`min(boosted_rate × boosted-spend + base × max(total − boosted, 0), cap)`
where the base rate is the default below 1,000,000, the mid rate in
[1,000,000, 6,000,000) and the high rate at ≥ 6,000,000; in particular the
premium benefit never exceeds the cap. -/
theorem C3_thm (c : ClientRow) (txOpt : Option (List Tx))
    (trOpt : Option (List Tr)) (cfg : Cfg) (b : List (String × ℚ))
    (f : List (String × FactDict)) (rates : Rates) (cats : Categories)
    (prem : PremiumRates) (tx : List Tx) (bcr cap base : ℚ)
    (cboost : List String)
    (hok : compute_expected_benefits c txOpt trOpt cfg = some (b, f))
    (h1 : cfg.rates = some rates) (h2 : cfg.categories = some cats)
    (htx : txOpt = some tx) (h5 : rates.premium = some prem)
    (h10 : cats.premium_boosted = some cboost)
    (h12 : prem.boosted_categories_rate = some bcr)
    (h13 : prem.cashback_cap_month = some cap)
    (h18 : premiumBase prem (avgBal c) = some base) :
    b.lookup "Премиальная карта" =
        some (min (bcr * sumSpend (catSpend tx) cboost +
          base * max (totalSpend tx - sumSpend (catSpend tx) cboost) 0) cap)
      ∧ (avgBal c < 1000000 → prem.base_default = some base)
      ∧ (1000000 ≤ avgBal c ∧ avgBal c < 6000000 → prem.base_mid = some base)
      ∧ (6000000 ≤ avgBal c → prem.base_high = some base)
      ∧ ∀ v, b.lookup "Премиальная карта" = some v → v ≤ cap := by
  obtain ⟨rates', cats', tx', tcb', prem', ccr', fxr', dep', ctrav', cboost',
    conl', bcr', cap', fav', dm', ds', da', base', k1, k2, k3, k4, k5, k6, k7,
    k8, k9, k10, k11, k12, k13, k14, k15, k16, k17, k18, hr⟩ := compute_spec hok
  rw [h1] at k1
  obtain rfl : rates = rates' := Option.some.inj k1
  rw [h2] at k2
  obtain rfl : cats = cats' := Option.some.inj k2
  rw [htx] at k3
  obtain rfl : tx = tx' := Option.some.inj k3
  rw [h5] at k5
  obtain rfl : prem = prem' := Option.some.inj k5
  rw [h10] at k10
  obtain rfl : cboost = cboost' := Option.some.inj k10
  rw [h12] at k12
  obtain rfl : bcr = bcr' := Option.some.inj k12
  rw [h13] at k13
  obtain rfl : cap = cap' := Option.some.inj k13
  rw [h18] at k18
  obtain rfl : base = base' := Option.some.inj k18
  injection hr with hb hf
  subst hb
  have hl : (benefitsList c tx trOpt tcb' base bcr cap fav' fxr' dm' ds' da'
      ctrav' cboost conl').lookup "Премиальная карта" =
      some (min (bcr * sumSpend (catSpend tx) cboost +
        base * max (totalSpend tx - sumSpend (catSpend tx) cboost) 0) cap) := by
    simp +decide [benefitsList, List.lookup]
  have htier : ∀ {q : ℚ}, premiumBase prem q = some base →
      (q < 1000000 → prem.base_default = some base) ∧
      (1000000 ≤ q ∧ q < 6000000 → prem.base_mid = some base) ∧
      (6000000 ≤ q → prem.base_high = some base) := by
    intro q hq
    unfold premiumBase at hq
    cases hbd : prem.base_default with
    | none => rw [hbd] at hq; exact Option.noConfusion hq
    | some bd =>
      rw [hbd] at hq
      dsimp only at hq
      refine ⟨?_, ?_, ?_⟩
      · intro hlt
        rw [if_neg (by intro hc; exact absurd hlt (not_lt.mpr hc.1)),
          if_neg (by intro hc; exact absurd hlt (not_lt.mpr (by linarith)))] at hq
        exact hq
      · intro hc
        rwa [if_pos hc] at hq
      · intro hge
        rw [if_neg (by intro hc; exact absurd hge (not_le.mpr hc.2)),
          if_pos hge] at hq
        exact hq
  exact ⟨hl, (htier h18).1, (htier h18).2.1, (htier h18).2.2, by
    intro v hv
    rw [hl] at hv
    rw [← Option.some.inj hv]
    exact min_le_right _ _⟩

/-- The exact BenefitMap for `clientMid` (mid premium tier) with empty
tables under `cfgDemo`. -/
def benefitsMid : List (String × ℚ) :=
  [("Карта для путешествий", 0), ("Премиальная карта", 0),
   ("Кредитная карта", 0), ("Обмен валют", 0), ("Кредит наличными", 0),
   ("Депозит Мультивалютный", 72500), ("Депозит Сберегательный", 82500),
   ("Депозит Накопительный", 77500), ("Инвестиции", 0), ("Золотые слитки", 0)]

/-- The exact FactMap for `clientMid` with empty tables under `cfgDemo`
(the mid-tier base rate 2/100 is reported). -/
def factsMid : List (String × FactDict) :=
  [("Карта для путешествий", [("travel_spend", .num 0)]),
   ("Премиальная карта",
     [("avg_balance", .num 2000000), ("boosted_spend", .num 0),
      ("total_spend", .num 0), ("rate", .num (2/100))]),
   ("Кредитная карта", [("top3", .strList []), ("top3_spend", .num 0)]),
   ("Обмен валют", [("fx_volume_est", .num 0), ("fx_ops", .int 0)]),
   ("Кредит наличными", []),
   ("Депозит Мультивалютный", [("avg_balance", .num 2000000)]),
   ("Депозит Сберегательный", [("avg_balance", .num 2000000)]),
   ("Депозит Накопительный", [("avg_balance", .num 2000000)]),
   ("Инвестиции", [("signal", .int 0)]),
   ("Золотые слитки", [("signal", .int 0)])]

/-- C3 witness: the theorem applied to a mid-tier client under `cfgDemo`. -/
theorem C3_witness :
    benefitsMid.lookup "Премиальная карта" =
      some (min ((4/100 : ℚ) * sumSpend (catSpend ([] : List Tx))
          ["Ювелирные украшения", "Косметика и Парфюмерия", "Кафе и рестораны"] +
        (2/100) * max (totalSpend [] - sumSpend (catSpend [])
          ["Ювелирные украшения", "Косметика и Парфюмерия", "Кафе и рестораны"]) 0)
        100000) :=
  (C3_thm clientMid (some []) (some []) cfgDemo benefitsMid factsMid ratesDemo
    catsDemo premDemo [] (4/100) 100000 (2/100)
    ["Ювелирные украшения", "Косметика и Парфюмерия", "Кафе и рестораны"]
    (by norm_num +decide [compute_expected_benefits, cfgDemo, ratesDemo,
      catsDemo, premDemo, clientMid, benefitsList, factsList, benefitsMid,
      factsMid, premiumBase, avgBal, catSpend, groupKeys, getSpend, sumSpend,
      totalSpend, top3, top3Cats, top3Spend, sortBySpendDesc, onlineExtra,
      onlineExtraCats, fxVol, fxOps, fxVolTypes, fxOpTypes, investSignal,
      goldSignal, clipAmount, List.insertionSort, List.orderedInsert,
      benefitGe, List.dedup, List.pwFilter, List.lookup])
    rfl rfl rfl rfl rfl rfl rfl
    (by norm_num [premiumBase, premDemo, avgBal, clientMid])).1

/-- C4: on a successful run the credit-card benefit equals
`fav_rate × (top-3 spend + spend in online categories not among the top 3)`;
the online-extra categories are disjoint from the top-3 categories (no
double counting), and every top-3 entry's spend is at least every dropped
entry's spend. -/
theorem C4_thm (c : ClientRow) (txOpt : Option (List Tx))
    (trOpt : Option (List Tr)) (cfg : Cfg) (b : List (String × ℚ))
    (f : List (String × FactDict)) (rates : Rates) (cats : Categories)
    (ccr : CreditCardRates) (tx : List Tx) (fav : ℚ) (conl : List String)
    (hok : compute_expected_benefits c txOpt trOpt cfg = some (b, f))
    (h1 : cfg.rates = some rates) (h2 : cfg.categories = some cats)
    (htx : txOpt = some tx) (h6 : rates.credit_card = some ccr)
    (h11 : cats.online = some conl) (h14 : ccr.fav_rate = some fav) :
    b.lookup "Кредитная карта" =
        some (fav * (top3Spend tx + onlineExtra conl tx))
      ∧ (∀ cat ∈ onlineExtraCats conl tx, cat ∉ top3Cats tx)
      ∧ (∀ p ∈ top3 tx, ∀ q ∈ (sortBySpendDesc (catSpend tx)).drop 3, q.2 ≤ p.2) := by
  obtain ⟨rates', cats', tx', tcb', prem', ccr', fxr', dep', ctrav', cboost',
    conl', bcr', cap', fav', dm', ds', da', base', k1, k2, k3, k4, k5, k6, k7,
    k8, k9, k10, k11, k12, k13, k14, k15, k16, k17, k18, hr⟩ := compute_spec hok
  rw [h1] at k1
  obtain rfl : rates = rates' := Option.some.inj k1
  rw [h2] at k2
  obtain rfl : cats = cats' := Option.some.inj k2
  rw [htx] at k3
  obtain rfl : tx = tx' := Option.some.inj k3
  rw [h6] at k6
  obtain rfl : ccr = ccr' := Option.some.inj k6
  rw [h11] at k11
  obtain rfl : conl = conl' := Option.some.inj k11
  rw [h14] at k14
  obtain rfl : fav = fav' := Option.some.inj k14
  injection hr with hb hf
  subst hb
  refine ⟨by simp +decide [benefitsList, List.lookup], ?_, ?_⟩
  · intro cat hcat
    unfold onlineExtraCats at hcat
    rw [List.mem_filter] at hcat
    simpa using hcat.2
  · intro p hp q hq
    exact (List.sorted_insertionSort benefitGe
      (catSpend tx)).rel_of_mem_take_of_mem_drop hp hq

/-- A demo transaction table with five distinct categories. -/
def txDemo : List Tx :=
  [⟨"Такси", 10000⟩, ⟨"Кафе и рестораны", 30000⟩, ⟨"Продукты", 50000⟩,
   ⟨"Смотрим дома", 5000⟩, ⟨"Одежда", 20000⟩]

/-- The exact BenefitMap for `clientZero` with `txDemo` under `cfgDemo`. -/
def benefitsTxDemo : List (String × ℚ) :=
  [("Карта для путешествий", 400), ("Премиальная карта", 2050),
   ("Кредитная карта", 10500), ("Обмен валют", 0), ("Кредит наличными", 0),
   ("Депозит Мультивалютный", 0), ("Депозит Сберегательный", 0),
   ("Депозит Накопительный", 0), ("Инвестиции", 0), ("Золотые слитки", 0)]

/-- The exact FactMap for `clientZero` with `txDemo` under `cfgDemo`. -/
def factsTxDemo : List (String × FactDict) :=
  [("Карта для путешествий", [("travel_spend", .num 10000)]),
   ("Премиальная карта",
     [("avg_balance", .num 0), ("boosted_spend", .num 30000),
      ("total_spend", .num 115000), ("rate", .num (1/100))]),
   ("Кредитная карта",
     [("top3", .strList ["Продукты", "Кафе и рестораны", "Одежда"]),
      ("top3_spend", .num 100000)]),
   ("Обмен валют", [("fx_volume_est", .num 0), ("fx_ops", .int 0)]),
   ("Кредит наличными", []),
   ("Депозит Мультивалютный", [("avg_balance", .num 0)]),
   ("Депозит Сберегательный", [("avg_balance", .num 0)]),
   ("Депозит Накопительный", [("avg_balance", .num 0)]),
   ("Инвестиции", [("signal", .int 0)]),
   ("Золотые слитки", [("signal", .int 0)])]

/-- C4 witness: the theorem applied to `txDemo` under `cfgDemo`. -/
theorem C4_witness :
    benefitsTxDemo.lookup "Кредитная карта" =
      some ((1/10 : ℚ) * (top3Spend txDemo +
        onlineExtra ["Смотрим дома", "Играем дома", "Едим дома"] txDemo)) :=
  (C4_thm clientZero (some txDemo) (some []) cfgDemo benefitsTxDemo factsTxDemo
    ratesDemo catsDemo ⟨some (1/10)⟩ txDemo (1/10)
    ["Смотрим дома", "Играем дома", "Едим дома"]
    (by norm_num +decide [compute_expected_benefits, cfgDemo, ratesDemo,
      catsDemo, premDemo, clientZero, benefitsList, factsList, benefitsTxDemo,
      factsTxDemo, txDemo, premiumBase, avgBal, catSpend, groupKeys, getSpend,
      sumSpend, totalSpend, top3, top3Cats, top3Spend, sortBySpendDesc,
      onlineExtra, onlineExtraCats, fxVol, fxOps, fxVolTypes, fxOpTypes,
      investSignal, goldSignal, clipAmount, List.insertionSort,
      List.orderedInsert, benefitGe, List.dedup, List.pwFilter, List.lookup,
      beq_eq_decide])
    rfl rfl rfl rfl rfl rfl).1

/-- C5: `rank_products` returns a permutation of the benefit map's entries,
sorted by descending benefit; ranking an already ranked list changes
nothing (idempotence); and any two entries with equal benefits keep their
relative (insertion) order — the stable tie-break. -/
theorem C5_thm (b : List (String × ℚ)) :
    List.Perm (rank_products b) b
    ∧ List.Pairwise (fun x y : String × ℚ => y.2 ≤ x.2) (rank_products b)
    ∧ rank_products (rank_products b) = rank_products b
    ∧ ∀ x y : String × ℚ, List.Sublist [x, y] b → x.2 = y.2 →
        List.Sublist [x, y] (rank_products b) := by
  refine ⟨List.perm_insertionSort benefitGe b, ?_, ?_, ?_⟩
  · exact List.sorted_insertionSort benefitGe b
  · exact List.Sorted.insertionSort_eq (List.sorted_insertionSort benefitGe b)
  · intro x y hsub heq
    exact List.pair_sublist_insertionSort (le_of_eq heq.symm) hsub

/-- C5 witness: idempotence and the stable tie-break on a concrete benefit
map containing equal values. -/
theorem C5_witness :
    rank_products (rank_products benefitsHalfMil) = rank_products benefitsHalfMil
    ∧ List.Sublist [("Кредит наличными", (0:ℚ)), ("Инвестиции", 0)]
        (rank_products benefitsHalfMil) :=
  ⟨(C5_thm benefitsHalfMil).2.2.1,
   (C5_thm benefitsHalfMil).2.2.2 _ _ (by decide) rfl⟩

/-- Shallow embedding of `ModelInterface.get_best_product`
(src/model_interface.py:179-223).  The ML and rule prediction lists are
passed in as the results of `predict_product_ml` (empty when the model is
unavailable or fails) and `predict_product_rules`; the method string and
the `ml_model_available` flag drive the same early-return control flow as
the Python source. -/
def get_best_product (ml_model_available : Bool)
    (ml_predictions rule_predictions : List (String × ℚ))
    (method : String) : String × ℚ :=
  -- `if method == "ml" and self.ml_model_available: ... if ml_predictions: return ml_predictions[0]`
  match (if method == "ml" && ml_model_available then ml_predictions else []) with
  | p :: _ => p
  | [] =>
    -- `if method == "rules" or not self.ml_model_available: ... if rule_predictions: return rule_predictions[0]`
    match (if method == "rules" || !ml_model_available then rule_predictions else []) with
    | q :: _ => q
    | [] =>
      if method == "hybrid" then
        match (if ml_model_available then ml_predictions else []), rule_predictions with
        | m :: _, r :: _ =>
          if m.1 == r.1 then (m.1, min (m.2 + r.2 * (1/10)) 1)
          else (m.1, m.2 * (8/10))
        | [], r :: _ => r
        | _, [] => ("Инвестиции", 1/10)
      else ("Инвестиции", 1/10)

/-- C6: in hybrid mode the Combiner implements the four-way decision table:
rule-only → rule top unchanged; both present and top names equal → that
product with confidence `min(ml + rule × 0.1, 1)`; both present and
disagreeing → ml's product with confidence `ml × 0.8`; neither → the
fallback `("Инвестиции", 0.1)`. -/
theorem C6_thm (mlAvail : Bool) (mlPreds rulePreds : List (String × ℚ)) :
    (∀ r rest, (mlAvail = false ∨ mlPreds = []) → rulePreds = r :: rest →
        get_best_product mlAvail mlPreds rulePreds "hybrid" = r)
    ∧ (∀ m mrest r rrest, mlAvail = true → mlPreds = m :: mrest →
        rulePreds = r :: rrest → m.1 = r.1 →
        get_best_product mlAvail mlPreds rulePreds "hybrid" =
          (m.1, min (m.2 + r.2 * (1/10)) 1))
    ∧ (∀ m mrest r rrest, mlAvail = true → mlPreds = m :: mrest →
        rulePreds = r :: rrest → m.1 ≠ r.1 →
        get_best_product mlAvail mlPreds rulePreds "hybrid" = (m.1, m.2 * (8/10)))
    ∧ ((mlAvail = false ∨ mlPreds = []) → rulePreds = [] →
        get_best_product mlAvail mlPreds rulePreds "hybrid" = ("Инвестиции", 1/10)) := by
  refine ⟨?_, ?_, ?_, ?_⟩
  · rintro r rest (rfl | rfl) rfl
    · simp +decide [get_best_product]
    · cases mlAvail <;> simp +decide [get_best_product]
  · rintro m mrest r rrest rfl rfl rfl heq
    simp +decide [get_best_product, heq]
  · rintro m mrest r rrest rfl rfl rfl hne
    have hb : (m.1 == r.1) = false := beq_eq_false_iff_ne.mpr hne
    simp +decide [get_best_product, hb]
  · rintro (rfl | rfl) rfl
    · simp +decide [get_best_product]
    · cases mlAvail <;> simp +decide [get_best_product]

/-- C6 witness: the spec's own example — matching top picks with ml
confidence 0.85 and rule confidence 0.9 give the product with confidence
`min(0.85 + 0.09, 1)`. -/
theorem C6_witness :
    get_best_product true [("Премиальная карта", 85/100)]
        [("Премиальная карта", 9/10)] "hybrid" =
      ("Премиальная карта", min ((85/100 : ℚ) + (9/10) * (1/10)) 1) :=
  (C6_thm true [("Премиальная карта", 85/100)] [("Премиальная карта", 9/10)]).2.1
    ("Премиальная карта", 85/100) [] ("Премиальная карта", 9/10) [] rfl rfl rfl rfl

/-- Some rate key that `compute_expected_benefits` reads unconditionally is
missing from the configuration (`base_mid`/`base_high` are read only in
their balance tiers and are therefore not required on every run). -/
def requiredRateMissing (cfg : Cfg) : Prop :=
  match cfg.rates with
  | none => True
  | some rates =>
    rates.travel_cashback = none ∨
    (match rates.premium with
     | none => True
     | some p => p.base_default = none ∨ p.boosted_categories_rate = none ∨
         p.cashback_cap_month = none) ∨
    (match rates.credit_card with
     | none => True
     | some cc => cc.fav_rate = none) ∨
    rates.fx_saving_rate = none ∨
    (match rates.deposits with
     | none => True
     | some d => d.multi = none ∨ d.save = none ∨ d.accum = none)

/-- C7: whenever a required rate key is missing, the Calculator fails fast
— the run raises (result `none`) instead of substituting a default. -/
theorem C7_thm (c : ClientRow) (txOpt : Option (List Tx))
    (trOpt : Option (List Tr)) (cfg : Cfg) (hmiss : requiredRateMissing cfg) :
    compute_expected_benefits c txOpt trOpt cfg = none := by
  cases hco : compute_expected_benefits c txOpt trOpt cfg with
  | none => rfl
  | some r =>
    exfalso
    obtain ⟨rates, cats, tx, tcb, prem, ccr, fxr, dep, ctrav, cboost, conl, bcr,
      cap, fav, dm, ds, da, base, k1, k2, k3, k4, k5, k6, k7, k8, k9, k10, k11,
      k12, k13, k14, k15, k16, k17, k18, hr⟩ := compute_spec hco
    have hbde : ∃ bd, prem.base_default = some bd := by
      unfold premiumBase at k18
      cases hb : prem.base_default with
      | none => rw [hb] at k18; exact Option.noConfusion k18
      | some bd => exact ⟨bd, rfl⟩
    obtain ⟨bd, hbd⟩ := hbde
    unfold requiredRateMissing at hmiss
    rw [k1] at hmiss
    dsimp only at hmiss
    rw [k5, k6, k8] at hmiss
    dsimp only at hmiss
    rcases hmiss with h | (h | h | h) | h | h | (h | h | h)
    · rw [k4] at h; exact Option.noConfusion h
    · rw [hbd] at h; exact Option.noConfusion h
    · rw [k12] at h; exact Option.noConfusion h
    · rw [k13] at h; exact Option.noConfusion h
    · rw [k14] at h; exact Option.noConfusion h
    · rw [k7] at h; exact Option.noConfusion h
    · rw [k15] at h; exact Option.noConfusion h
    · rw [k16] at h; exact Option.noConfusion h
    · rw [k17] at h; exact Option.noConfusion h

/-- A demo configuration whose `travel_cashback` key is missing. -/
def cfgMissing : Cfg :=
  { rates := some
      { travel_cashback := none
        premium := some premDemo
        credit_card := some { fav_rate := some (1/10) }
        fx_saving_rate := some (1/100)
        deposits := some { multi := some 1, save := some 1, accum := some 1 } }
    categories := some catsDemo }

/-- C7 witness: the theorem applied to `cfgMissing`. -/
theorem C7_witness :
    requiredRateMissing cfgMissing ∧
    compute_expected_benefits clientZero (some []) none cfgMissing = none :=
  ⟨Or.inl rfl, C7_thm clientZero (some []) none cfgMissing (Or.inl rfl)⟩

/-- C8: the Calculator and Ranker are deterministic and stateless — the
embedding is a pure function of exactly the four declared inputs (the
Python bodies read no module-level or hidden mutable state), so two calls
with equal client row, tables, configuration and benefit map return equal
results. -/
theorem C8_thm (c c2 : ClientRow) (txOpt txOpt2 : Option (List Tx))
    (trOpt trOpt2 : Option (List Tr)) (cfg cfg2 : Cfg)
    (b b2 : List (String × ℚ))
    (hc : c = c2) (htx : txOpt = txOpt2) (htr : trOpt = trOpt2)
    (hcfg : cfg = cfg2) (hb : b = b2) :
    compute_expected_benefits c txOpt trOpt cfg =
        compute_expected_benefits c2 txOpt2 trOpt2 cfg2
    ∧ rank_products b = rank_products b2 := by
  subst hc htx htr hcfg hb
  exact ⟨rfl, rfl⟩

/-- C8 witness: two identical calls on concrete data. -/
theorem C8_witness :
    compute_expected_benefits clientHalfMil (some []) (some []) cfgDemo =
        compute_expected_benefits clientHalfMil (some []) (some []) cfgDemo
    ∧ rank_products benefitsHalfMil = rank_products benefitsHalfMil :=
  C8_thm clientHalfMil clientHalfMil (some []) (some []) (some []) (some [])
    cfgDemo cfgDemo benefitsHalfMil benefitsHalfMil rfl rfl rfl rfl rfl

/-- A pandas DataFrame object holding the transaction table: its rows plus
the optional derived `amount_kzt` column. -/
structure TxTable where
  rows : List Tx
  amount_kzt : Option (List ℚ)
deriving DecidableEq

/-- The store of live DataFrame objects; a Python variable holds a
reference (an index) into it. -/
abbrev PdHeap := List TxTable

/-- Dereference; a dangling reference yields an empty table. -/
def heap_read (h : PdHeap) (r : Nat) : TxTable := h.getD r ⟨[], none⟩

/-- `tx.copy()`: allocate a fresh object holding the same value and return
its reference. -/
def pd_copy (h : PdHeap) (r : Nat) : PdHeap × Nat :=
  (h ++ [heap_read h r], h.length)

/-- Column assignment on the object behind reference `r`. -/
def heap_write (h : PdHeap) (r : Nat) (t : TxTable) : PdHeap := h.set r t

/-- `compute_expected_benefits` with the caller's transaction table passed
by reference into an explicit object store: `tx = tx.copy()` rebinds the
local name to a fresh object, and the column assignment
`tx["amount_kzt"] = tx["amount"].clip(lower=0)` mutates only that copy;
the aggregation then runs over the copy's rows.  The transfer table and
the configuration are modelled as plain values because the source only
reads them (no assignment targets them anywhere in the function). -/
def compute_expected_benefits_heap (client_row : ClientRow) (h : PdHeap)
    (txRef : Nat) (trOpt : Option (List Tr)) (cfg : Cfg) :
    PdHeap × Option (List (String × ℚ) × List (String × FactDict)) :=
  let hr := pd_copy h txRef
  let h1 := hr.1
  let r1 := hr.2
  let t1 := heap_read h1 r1
  let h2 := heap_write h1 r1
    { t1 with amount_kzt := some (t1.rows.map clipAmount) }
  (h2, compute_expected_benefits client_row (some (heap_read h2 r1).rows) trOpt cfg)

/-- Reading below the old length is unaffected by an append. -/
theorem heap_read_append (h l : PdHeap) (i : Nat) (hi : i < h.length) :
    heap_read (h ++ l) i = heap_read h i := by
  unfold heap_read
  rw [List.getD_eq_getElem?_getD, List.getD_eq_getElem?_getD,
    List.getElem?_append, if_pos hi]

/-- Reading the freshly appended cell returns the appended value. -/
theorem heap_read_append_self (h : PdHeap) (t : TxTable) :
    heap_read (h ++ [t]) h.length = t := by
  unfold heap_read
  rw [List.getD_eq_getElem?_getD, List.getElem?_append, if_neg (lt_irrefl _)]
  simp

/-- Overwriting the freshly appended cell rewrites only that cell. -/
theorem set_append_last (h : PdHeap) (t t2 : TxTable) :
    (h ++ [t]).set h.length t2 = h ++ [t2] := by
  induction h with
  | nil => rfl
  | cons a h ih => simp [List.set, ih]

/-- C9: the caller's transaction table — and every other pre-existing
object in the store — is identical after the call to before it; the
result is the pure-semantics result on the caller's rows (the derived
clipped-amount column lives only in the internal copy). -/
theorem C9_thm (c : ClientRow) (h : PdHeap) (txRef : Nat)
    (trOpt : Option (List Tr)) (cfg : Cfg) :
    (∀ i, i < h.length →
      heap_read (compute_expected_benefits_heap c h txRef trOpt cfg).1 i =
        heap_read h i)
    ∧ (compute_expected_benefits_heap c h txRef trOpt cfg).2 =
        compute_expected_benefits c (some (heap_read h txRef).rows) trOpt cfg := by
  unfold compute_expected_benefits_heap pd_copy heap_write
  dsimp only
  rw [heap_read_append_self, set_append_last]
  constructor
  · intro i hi
    exact heap_read_append h _ i hi
  · rw [heap_read_append_self]

/-- C9 witness: the frame theorem applied to a one-object store. -/
theorem C9_witness :
    heap_read (compute_expected_benefits_heap clientZero [⟨txDemo, none⟩] 0
      (some []) cfgDemo).1 0 = heap_read [⟨txDemo, none⟩] 0 :=
  (C9_thm clientZero [⟨txDemo, none⟩] 0 (some []) cfgDemo).1 0 (by decide)
